import Mathlib

/-!
Verification development for the report-generation subsystem of
django-DefectDojo (the `dojo_report` app plus `dojo/tasks.py`).

The Python source is shallowly embedded: pure helpers become Lean
functions, Django querysets become lists of records, the mutable
dictionaries used by the renderer become explicit heap cells, and the
asynchronous PDF job becomes a function from an environment (describing
the behaviour of the external collaborators) to an outcome record that
keeps the trace of persisted `Report` states and emitted notifications.
-/

set_option maxHeartbeats 1000000

namespace DojoReport

/-! ## Dates and times (`datetime.datetime`, `datetime.date`, `datetime.time`) -/

/-- A `datetime.date`: year, month, day. -/
structure DateV where
  year : Nat
  month : Nat
  day : Nat
  deriving DecidableEq, Repr

/-- A `datetime.time`: hour, minute, second, microsecond. -/
structure TimeV where
  hour : Nat
  minute : Nat
  second : Nat
  micro : Nat
  deriving DecidableEq, Repr

/-- A `datetime.datetime`: date plus time-of-day with microseconds. -/
structure DateTimeV where
  year : Nat
  month : Nat
  day : Nat
  hour : Nat
  minute : Nat
  second : Nat
  micro : Nat
  deriving DecidableEq, Repr

/-- Bounds a real Python `datetime.datetime` always satisfies
(`MINYEAR = 1`, `MAXYEAR = 9999`, and the usual field ranges). -/
def ValidDateTime (d : DateTimeV) : Prop :=
  1 ≤ d.year ∧ d.year ≤ 9999 ∧ 1 ≤ d.month ∧ d.month ≤ 12 ∧
    1 ≤ d.day ∧ d.day ≤ 31 ∧ d.hour ≤ 23 ∧ d.minute ≤ 59 ∧ d.second ≤ 59

instance (d : DateTimeV) : Decidable (ValidDateTime d) := by
  unfold ValidDateTime; infer_instance

/-- Bounds a real Python `datetime.date` always satisfies. -/
def ValidDate (d : DateV) : Prop :=
  1 ≤ d.year ∧ d.year ≤ 9999 ∧ 1 ≤ d.month ∧ d.month ≤ 12 ∧ 1 ≤ d.day ∧ d.day ≤ 31

instance (d : DateV) : Decidable (ValidDate d) := by
  unfold ValidDate; infer_instance

/-- Bounds a real Python `datetime.time` always satisfies. -/
def ValidTime (t : TimeV) : Prop :=
  t.hour ≤ 23 ∧ t.minute ≤ 59 ∧ t.second ≤ 59

instance (t : TimeV) : Decidable (ValidTime t) := by
  unfold ValidTime; infer_instance

/-- Models `strftime` zero-padded two-digit field (`%m`, `%d`, `%H`, `%M`, `%S`). -/
def pad2 (n : Nat) : List Char :=
  [Nat.digitChar (n / 10 % 10), Nat.digitChar (n % 10)]

/-- Models `strftime` zero-padded four-digit year (`%Y`, CPython pads to 4). -/
def pad4 (n : Nat) : List Char :=
  [Nat.digitChar (n / 1000 % 10), Nat.digitChar (n / 100 % 10),
   Nat.digitChar (n / 10 % 10), Nat.digitChar (n % 10)]

/-- Models `obj.strftime('%Y-%m-%dT%H:%M:%S')` from `convert_to_native_type`. -/
def formatDateTime (d : DateTimeV) : String :=
  ⟨pad4 d.year ++ '-' :: pad2 d.month ++ '-' :: pad2 d.day ++
    'T' :: pad2 d.hour ++ ':' :: pad2 d.minute ++ ':' :: pad2 d.second⟩

/-- Models `obj.strftime('%Y-%m-%d')` from `convert_to_native_type`. -/
def formatDate (d : DateV) : String :=
  ⟨pad4 d.year ++ '-' :: pad2 d.month ++ '-' :: pad2 d.day⟩

/-- Models `obj.strftime('%H:%M:%S')` from `convert_to_native_type`. -/
def formatTime (t : TimeV) : String :=
  ⟨pad2 t.hour ++ ':' :: pad2 t.minute ++ ':' :: pad2 t.second⟩

/-- Numeric value of an ASCII digit character, as `strptime` reads it. -/
def digitVal (c : Char) : Option Nat :=
  if '0' ≤ c ∧ c ≤ '9' then some (c.toNat - '0'.toNat) else none

/-- Two-digit field read by `strptime`. -/
def num2 (c1 c2 : Char) : Option Nat := do
  let a ← digitVal c1
  let b ← digitVal c2
  pure (a * 10 + b)

/-- Four-digit field read by `strptime`. -/
def num4 (c1 c2 c3 c4 : Char) : Option Nat := do
  let a ← digitVal c1
  let b ← digitVal c2
  let c ← digitVal c3
  let d ← digitVal c4
  pure (((a * 10 + b) * 10 + c) * 10 + d)

/-- Character-level body of `strptime(s, '%Y-%m-%dT%H:%M:%S')`. -/
def parseDateTimeChars : List Char → Option DateTimeV
  | [y1, y2, y3, y4, c5, m1, m2, c8, d1, d2, c11, h1, h2, c14, n1, n2, c17, s1, s2] =>
    if c5 = '-' ∧ c8 = '-' ∧ c11 = 'T' ∧ c14 = ':' ∧ c17 = ':' then do
      let y ← num4 y1 y2 y3 y4
      let mo ← num2 m1 m2
      let d ← num2 d1 d2
      let h ← num2 h1 h2
      let mi ← num2 n1 n2
      let se ← num2 s1 s2
      if 1 ≤ y ∧ 1 ≤ mo ∧ mo ≤ 12 ∧ 1 ≤ d ∧ d ≤ 31 ∧ h ≤ 23 ∧ mi ≤ 59 ∧ se ≤ 59 then
        some ⟨y, mo, d, h, mi, se, 0⟩
      else none
    else none
  | _ => none

/-- Models `datetime.strptime(s, '%Y-%m-%dT%H:%M:%S')`: fixed positions, field
range checks as CPython performs them, microseconds left at zero. -/
def parseDateTime (s : String) : Option DateTimeV :=
  parseDateTimeChars s.data

/-- Character-level body of `strptime(s, '%Y-%m-%d')`. -/
def parseDateChars : List Char → Option DateV
  | [y1, y2, y3, y4, c5, m1, m2, c8, d1, d2] =>
    if c5 = '-' ∧ c8 = '-' then do
      let y ← num4 y1 y2 y3 y4
      let mo ← num2 m1 m2
      let d ← num2 d1 d2
      if 1 ≤ y ∧ 1 ≤ mo ∧ mo ≤ 12 ∧ 1 ≤ d ∧ d ≤ 31 then
        some ⟨y, mo, d⟩
      else none
    else none
  | _ => none

/-- Models `datetime.strptime(s, '%Y-%m-%d').date()`. -/
def parseDate (s : String) : Option DateV :=
  parseDateChars s.data

/-- Character-level body of `strptime(s, '%H:%M:%S')`. -/
def parseTimeChars : List Char → Option TimeV
  | [h1, h2, c3, n1, n2, c6, s1, s2] =>
    if c3 = ':' ∧ c6 = ':' then do
      let h ← num2 h1 h2
      let mi ← num2 n1 n2
      let se ← num2 s1 s2
      if h ≤ 23 ∧ mi ≤ 59 ∧ se ≤ 59 then
        some ⟨h, mi, se, 0⟩
      else none
    else none
  | _ => none

/-- Models `datetime.strptime(s, '%H:%M:%S').time()`. -/
def parseTime (s : String) : Option TimeV :=
  parseTimeChars s.data

/-- Dropping sub-second precision from a datetime, as the
format-then-reparse round trip does. -/
def truncDateTime (d : DateTimeV) : DateTimeV := { d with micro := 0 }

/-- Dropping sub-second precision from a time value. -/
def truncTime (t : TimeV) : TimeV := { t with micro := 0 }

/-! ## Python values and `convert_to_native_type` (`dojo_report/utils.py`) -/

/-- The Python values that can flow into `convert_to_native_type`:
`None`, strings, numbers (Python `bool` is a number), dictionaries,
other iterables (lists, querysets), date/time values, `AbstractUser`
instances (field name/value pairs, among them `password`), other Django
model instances (their local fields), and objects matching no rule. -/
inductive Value where
  | vNone
  | vStr (s : String)
  | vNum (n : Int)
  | vDict (ps : List (Value × Value))
  | vList (xs : List Value)
  | vDateTime (d : DateTimeV)
  | vDate (d : DateV)
  | vTime (t : TimeV)
  | vUser (fs : List (String × Value))
  | vModel (fs : List (String × Value))
  | vUnknown (tag : Nat)

/-- The native (JSON-serializable) results of the converter. -/
inductive Native where
  | nNone
  | nStr (s : String)
  | nNum (n : Int)
  | nDict (ps : List (Native × Native))
  | nList (xs : List Native)

mutual

/-- Models `convert_to_native_type(obj, ignore_errors)` from
`dojo_report/utils.py`, rule for rule: `None`; strings and numbers
unchanged; dicts with keys and values converted; other iterables to
lists; datetime/date/time to their fixed `strftime` strings;
`AbstractUser` via `convert_model_typed_object(obj,
exclude_fields=['password'])`; other models via
`convert_model_typed_object(obj)`; anything else raises `ValueError`
unless `ignore_errors`, in which case the function falls through and
returns `None`.  The recursive calls use the source's call sites
verbatim: they pass no `ignore_errors` argument, so nested conversions
always run with `ignore_errors=False`. -/
def convert : Value → Bool → Except Unit Native
  | .vNone, _ => .ok .nNone
  | .vStr s, _ => .ok (.nStr s)
  | .vNum n, _ => .ok (.nNum n)
  | .vDict ps, _ => (convertPairs ps).map .nDict
  | .vList xs, _ => (convertList xs).map .nList
  | .vDateTime d, _ => .ok (.nStr (formatDateTime d))
  | .vDate d, _ => .ok (.nStr (formatDate d))
  | .vTime t, _ => .ok (.nStr (formatTime t))
  | .vUser fs, _ => (convertFields fs ["password"]).map .nDict
  | .vModel fs, _ => (convertFields fs []).map .nDict
  | .vUnknown _, ie => if ie then .ok .nNone else .error ()

/-- Elementwise conversion of an iterable,
`[convert_to_native_type(part) for part in obj]`. -/
def convertList : List Value → Except Unit (List Native)
  | [] => .ok []
  | v :: rest => do
    let n ← convert v false
    let ns ← convertList rest
    pure (n :: ns)

/-- Key/value conversion of a dict,
`{convert_to_native_type(k): convert_to_native_type(v) for k, v in obj.items()}`. -/
def convertPairs : List (Value × Value) → Except Unit (List (Native × Native))
  | [] => .ok []
  | (k, v) :: rest => do
    let nk ← convert k false
    let nv ← convert v false
    let ns ← convertPairs rest
    pure ((nk, nv) :: ns)

/-- Models `convert_model_typed_object` with `include_fields` left empty: the
included names are the model's local field names minus the exclusion
list (we keep the declaration order where Python iterates a set), and
each included field's value is converted with
`convert_to_native_type(getattr(obj, f_name))`. -/
def convertFields : List (String × Value) → List String → Except Unit (List (Native × Native))
  | [], _ => .ok []
  | (name, v) :: rest, excl =>
    if name ∈ excl then convertFields rest excl
    else do
      let nv ← convert v false
      let ns ← convertFields rest excl
      pure ((.nStr name, nv) :: ns)

end

/-- Values whose conversion is a single non-recursive rule that always
succeeds. -/
def leafConvertible : Value → Bool
  | .vNone => true
  | .vStr _ => true
  | .vNum _ => true
  | .vDateTime _ => true
  | .vDate _ => true
  | .vTime _ => true
  | _ => false

/-- Values matching no conversion rule. -/
def unconvertibleLeaf : Value → Bool
  | .vUnknown _ => true
  | _ => false

/-- String keys of a converted dictionary. -/
def dictKeys (ps : List (Native × Native)) : List String :=
  ps.filterMap fun p =>
    match p.1 with
    | .nStr s => some s
    | _ => none

/-- Value of a string key in a converted dictionary. -/
def dictGet (ps : List (Native × Native)) (k : String) : Option Native :=
  (ps.find? fun p =>
    match p.1 with
    | .nStr s => s == k
    | _ => false).map Prod.snd

/-! ## Python dictionaries with aliasing (rendering contexts) -/

/-- A rendering context: a Python `dict` from string keys to values,
keeping insertion order. -/
abbrev Ctx := List (String × Value)

/-- Models `d[k] = v`: replace in place if the key exists, else append. -/
def ctxSet (c : Ctx) (k : String) (v : Value) : Ctx :=
  if c.any (fun p => p.1 = k) then
    c.map fun p => if p.1 = k then (k, v) else p
  else c ++ [(k, v)]

/-- Models `d.update(u)`: `d[k] = v` for each pair of `u` in order. -/
def ctxUpdate (c u : Ctx) : Ctx :=
  u.foldl (fun acc p => ctxSet acc p.1 p.2) c

/-- Models `k in d`. -/
def ctxHasKey (c : Ctx) (k : String) : Bool :=
  c.any fun p => p.1 = k

/-- Models `d.get(k)` / `d[k]`: first binding of the key. -/
def ctxGet (c : Ctx) (k : String) : Option Value :=
  (c.find? fun p => p.1 = k).map Prod.snd

/-- The context as a Python value (for `convert_to_native_type`). -/
def ctxValue (c : Ctx) : Value :=
  .vDict (c.map fun p => (.vStr p.1, p.2))

/-- A heap of shared mutable dictionaries; a reference is an index.
Cell `0` is reserved for the one `dict` object Python allocates for the
`initial_context={}` default argument of `ReportRenderer.__init__` when
the module is loaded. -/
structure Heap where
  cells : List Ctx

/-- Reading a dictionary through its reference. -/
def readRef (h : Heap) (r : Nat) : Ctx :=
  h.cells.getD r []

/-- Writing a dictionary through its reference. -/
def writeRef (h : Heap) (r : Nat) (c : Ctx) : Heap :=
  ⟨h.cells.set r c⟩

/-- The heap as it stands right after module load: only the shared
default dictionary, empty, at cell `0`. -/
def moduleHeap : Heap := ⟨[[]]⟩

/-! ## `ReportRenderer` / `JsonReportRenderer` (`dojo_report/renderers.py`) -/

/-- The closed `report_types` list of `ReportRenderer`. -/
def reportTypes : List String :=
  ["custom", "endpoint", "engagement", "finding", "product_endpoint",
   "product", "product_type", "report", "test", "queryset"]

/-- A renderer instance: the record-set, the report type, the reference
to `_initial_context`, and `_context` (which starts as `None`). -/
structure RState where
  queryset : Value
  reportType : String
  initialCtx : Nat
  context : Option Nat

/-- Models `ReportRenderer.__init__(queryset, report_type, initial_context={})`:
raises `ReportRenderingError` when the report type is not in the closed
list; a caller not passing `initial_context` gets the shared default
dictionary (cell `0`). -/
def mkJsonRenderer (qs : Value) (rt : String) (initialCtx : Option Nat) :
    Except Unit RState :=
  if rt ∈ reportTypes then
    .ok { queryset := qs, reportType := rt, initialCtx := initialCtx.getD 0, context := none }
  else .error ()

/-- Models `queryset.values()`: each model row projected to a field dictionary. -/
def valuesProjection : Value → Value
  | .vList xs =>
    .vList (xs.map fun x =>
      match x with
      | .vModel fs => .vDict (fs.map fun p => (.vStr p.1, p.2))
      | v => v)
  | v => v

/-- Models `create_context`: `self._context = self._initial_context` (an alias,
NOT a copy), then `self._context['objects'] = self._queryset.values()`. -/
def createContext (h : Heap) (st : RState) : Heap × RState :=
  let r := st.initialCtx
  let c := ctxSet (readRef h r) "objects" (valuesProjection st.queryset)
  (writeRef h r c, { st with context := some r })

/-- Models `if not self._context:` — Python falsiness: `None` or an empty dict. -/
def contextMissing (h : Heap) (st : RState) : Bool :=
  match st.context with
  | none => true
  | some r => (readRef h r).isEmpty

/-- Models `JsonReportRenderer.render(context_update={})`: `prepare_rendering`
(the JSON override only ensures a context exists), then
`context = self._context; context.update(context_update)` mutating the
shared dictionary in place, then `perform_rendering(context_update)` —
note the source passes `context_update`, not the merged `context`, and
the JSON `perform_rendering` returns
`json.dumps(convert_to_native_type(context))` of its argument. -/
def rendererRenderJson (h : Heap) (st : RState) (upd : Ctx) :
    Heap × RState × Except Unit Native :=
  let hs := if contextMissing h st then createContext h st else (h, st)
  let h1 := hs.1
  let st1 := hs.2
  let cref := st1.context.getD st1.initialCtx
  let merged := ctxUpdate (readRef h1 cref) upd
  let h2 := writeRef h1 cref merged
  (h2, st1, convert (ctxValue upd) false)

/-! ## Domain records (the slice of `dojo.models` the creators traverse) -/

/-- A `Product_Type` row. -/
structure ProductTypeRec where
  id : Nat
  name : String
  deriving DecidableEq, Repr

/-- A `Product` row; `authorizedUsers` is the `authorized_users`
many-to-many set, as user ids. -/
structure ProductRec where
  id : Nat
  name : String
  prodType : Nat
  authorizedUsers : List Nat
  deriving DecidableEq, Repr

/-- An `Engagement` row. -/
structure EngagementRec where
  id : Nat
  name : String
  product : Nat
  deriving DecidableEq, Repr

/-- A `Test` row. -/
structure TestRecord where
  id : Nat
  engagement : Nat
  testType : String
  deriving DecidableEq, Repr

/-- A `Finding` row; `date` is the finding's opening date. -/
structure FindingRecord where
  id : Nat
  title : String
  date : DateV
  severity : String
  test : Nat
  deriving DecidableEq, Repr

/-- A `Dojo_User` row with its credential field. -/
structure DojoUserRec where
  id : Nat
  username : String
  firstName : String
  lastName : String
  password : String
  deriving DecidableEq, Repr

/-- The database visible to the creators. -/
structure World where
  productTypes : List ProductTypeRec
  products : List ProductRec
  engagements : List EngagementRec
  tests : List TestRecord
  findings : List FindingRecord
  deriving Repr

/-- Models `finding.test.engagement.product`: the id of the product a finding
belongs to, following the `test__engagement__product` chain. -/
def findingProductId (w : World) (f : FindingRecord) : Option Nat :=
  (w.tests.find? fun t => t.id == f.test).bind fun t =>
    (w.engagements.find? fun e => e.id == t.engagement).map fun e => e.product

/-- Models `Finding.objects.filter(test__engagement__product=product)`. -/
def findingUnderProduct (w : World) (f : FindingRecord) (pid : Nat) : Bool :=
  findingProductId w f == some pid

/-- Models `Finding.objects.filter(test__engagement__product__prod_type=pt)`. -/
def findingUnderProductType (w : World) (f : FindingRecord) (ptid : Nat) : Bool :=
  match findingProductId w f with
  | some pid =>
    match w.products.find? fun p => p.id == pid with
    | some p => p.prodType == ptid
    | none => false
  | none => false

/-- The field map `convert_to_native_type` sees for a `Dojo_User`
(`AbstractUser` subclass): its local fields, credential included. -/
def userToValue (u : DojoUserRec) : Value :=
  .vUser [("id", .vNum u.id), ("username", .vStr u.username),
          ("first_name", .vStr u.firstName), ("last_name", .vStr u.lastName),
          ("password", .vStr u.password)]

/-- A `Product` row as a model object. -/
def productToValue (p : ProductRec) : Value :=
  .vModel [("id", .vNum p.id), ("name", .vStr p.name), ("prod_type", .vNum p.prodType)]

/-- A `Product_Type` row as a model object. -/
def productTypeToValue (pt : ProductTypeRec) : Value :=
  .vModel [("id", .vNum pt.id), ("name", .vStr pt.name)]

/-- An `Engagement` row as a model object. -/
def engagementToValue (e : EngagementRec) : Value :=
  .vModel [("id", .vNum e.id), ("name", .vStr e.name), ("product", .vNum e.product)]

/-- A `Test` row as a model object. -/
def testToValue (t : TestRecord) : Value :=
  .vModel [("id", .vNum t.id), ("engagement", .vNum t.engagement),
           ("test_type", .vStr t.testType)]

/-- A `Finding` row as a model object. -/
def findingToValue (f : FindingRecord) : Value :=
  .vModel [("id", .vNum f.id), ("title", .vStr f.title), ("date", .vDate f.date),
           ("severity", .vStr f.severity), ("test", .vNum f.test)]

/-- Python booleans are numbers (`isinstance(True, Number)` holds), so the
inclusion flags convert unchanged. -/
def boolValue (b : Bool) : Value :=
  .vNum (if b then 1 else 0)

/-- Request parameters (`self.parameters`) as a string-to-string dict. -/
def paramsValue (ps : List (String × String)) : Value :=
  .vDict (ps.map fun p => (.vStr p.1, .vStr p.2))

/-! ## Month bucketing for the ProductType report -/

/-- Models `datetime.combine(d, datetime.min.time())`: midnight of a date. -/
def dtAtMidnight (d : DateV) : DateTimeV :=
  ⟨d.year, d.month, d.day, 0, 0, 0, 0⟩

/-- Models `dt.date()`. -/
def dateOfDT (d : DateTimeV) : DateV :=
  ⟨d.year, d.month, d.day⟩

/-- Absolute month index of a datetime. -/
def monthIdx (d : DateTimeV) : Int :=
  (d.year : Int) * 12 + (d.month : Int)

/-- Absolute month index of a date. -/
def monthIdxD (d : DateV) : Int :=
  (d.year : Int) * 12 + (d.month : Int)

/-- Position of a datetime inside its month (day then time of day),
used to compare the sub-month parts of two datetimes. -/
def dayTimeKey (d : DateTimeV) : Nat :=
  (((d.day * 24 + d.hour) * 60 + d.minute) * 60 + d.second) * 1000000 + d.micro

/-- Chronological order on datetimes: earlier month, or same month and
no later within it. -/
def dtChronLe (a b : DateTimeV) : Prop :=
  monthIdx a < monthIdx b ∨ (monthIdx a = monthIdx b ∧ dayTimeKey a ≤ dayTimeKey b)

instance (a b : DateTimeV) : Decidable (dtChronLe a b) := by
  unfold dtChronLe; infer_instance

/-- Models `relativedelta(end, start).years * 12 + relativedelta(end, start).months`:
the signed whole-month difference, one month short when the sub-month part
of `end` is earlier than that of `start` (dateutil's normalisation). -/
def relativedeltaMonths (endD startD : DateTimeV) : Int :=
  let m := monthIdx endD - monthIdx startD
  if dayTimeKey endD < dayTimeKey startD then m - 1 else m

/-- The result shape of `get_period_counts_legacy` that
`ProductTypeReportCreator.populate` reads. -/
structure PeriodCounts where
  openedPerPeriod : List Nat
  deriving DecidableEq, Repr

/-- Modelled from the spec: `get_period_counts_legacy` lives in
`dojo/utils.py`, which is not under `src/`; only its call site is.  The
spec describes the result as "a month-bucketed count of findings opened
per month from the first finding's date through now (inclusive of the
current partial month)", with an empty filtered finding set yielding
zero buckets rather than an error.  We model it as `none` for an empty
finding set (the caller then falls back to the empty series) and
otherwise as one bucket per requested month, each counting the findings
opened in that month. -/
def getPeriodCountsLegacy (findings _active : List FindingRecord)
    (_accepted : Option Unit) (periodCount : Int) (startDate : DateTimeV) :
    Option PeriodCounts :=
  if findings.isEmpty then none
  else
    some ⟨(List.range periodCount.toNat).map fun i =>
      (findings.filter fun f => monthIdxD f.date == monthIdx startDate + i).length⟩

/-! ## `GenericReportCreator` subclasses (`dojo_report/creators.py`)

`ReportFindingFilter` (from `dojo.filters`, not under `src/`) applies
the remaining request parameters as field filters over the scope's base
finding queryset; we model it as an arbitrary predicate applied to that
queryset.  The root filter criteria of the generic `populate` are
modelled the same way. -/

/-- The populated state of a `ProductReportCreator`. -/
structure ProductCreatorState where
  user : DojoUserRec
  rootQs : List ProductRec
  baseContext : Ctx

/-- Models `ProductReportCreator.populate(product, **context_kwargs)`:
the generic `populate` pops the four inclusion flags, resolves
`Product.objects.filter(**context_kwargs)` as the root queryset, applies
`add_authorizing_filter` (for products: `filter(authorized_users=user)`),
and fills the base context (host, title `"Product Report"`, subtitle from
the first root node's name, report name, user, `settings.TEAM_NAME`,
parameters, the flags); the subclass then filters the findings reachable
from the **passed product** via `test__engagement__product=product`,
derives engagements and tests touched by those findings, and adds
`product`, `engagements`, `tests`, `findings` to the context. -/
def productCreatorPopulate (w : World) (user : DojoUserRec) (host teamName : String)
    (parameters : List (String × String)) (product : ProductRec)
    (rootFilter : ProductRec → Bool) (findingFilter : FindingRecord → Bool)
    (inclNotes inclImages inclSummary inclToc : Bool) : ProductCreatorState :=
  let qs0 := w.products.filter rootFilter
  let qs := qs0.filter fun p => p.authorizedUsers.contains user.id
  let subtitle := match qs with
    | [] => ""
    | p :: _ => p.name
  let title := "Product Report"
  let reportName := title ++ ": " ++ subtitle
  let base : Ctx :=
    [("host", .vStr host), ("title", .vStr title), ("subtitle", .vStr subtitle),
     ("report_name", .vStr reportName), ("user", userToValue user),
     ("team_name", .vStr teamName), ("parameters", paramsValue parameters),
     ("include_finding_notes", boolValue inclNotes),
     ("include_finding_images", boolValue inclImages),
     ("include_executive_summary", boolValue inclSummary),
     ("include_table_of_contents", boolValue inclToc)]
  let findings := (w.findings.filter fun f => findingUnderProduct w f product.id).filter
    findingFilter
  let tests := w.tests.filter fun t => findings.any fun f => f.test == t.id
  let engagements := w.engagements.filter fun e =>
    w.tests.any fun t => t.engagement == e.id && findings.any fun f => f.test == t.id
  { user := user, rootQs := qs,
    baseContext := ctxUpdate base
      [("product", productToValue product),
       ("engagements", .vList (engagements.map engagementToValue)),
       ("tests", .vList (tests.map testToValue)),
       ("findings", .vList (findings.map findingToValue))] }

/-- Models `GenericReportCreator.render('application/json')` for a populated
product creator: instantiate `JsonReportRenderer(self._queryset,
'product')` (no `initial_context`, hence the shared default dictionary)
and call `renderer.render(self.base_context)`. -/
def productCreatorRenderJson (h : Heap) (st : ProductCreatorState) :
    Heap × Except Unit Native :=
  match mkJsonRenderer (.vList (st.rootQs.map productToValue)) "product" none with
  | .error _ => (h, .error ())
  | .ok rst =>
    let out := rendererRenderJson h rst st.baseContext
    (out.1, out.2.2)

/-- The populated state of a `ProductTypeReportCreator`, with the
intermediate month-window quantities exposed for inspection. -/
structure ProductTypeCreatorState where
  user : DojoUserRec
  rootQs : List ProductTypeRec
  findings : List FindingRecord
  startDate : DateTimeV
  monthsBetween : Int
  openedPerMonth : List Nat
  baseContext : Ctx

/-- Models `ProductTypeReportCreator.populate(product_type, **context_kwargs)`:
generic `populate` (no authorization filter for this scope), then the
findings under the product type via
`test__engagement__product__prod_type`, the distinct products,
engagements and tests touched, and the "opened per month" series: the
start date is midnight of `findings.qs.last().date` when the filtered set
is non-empty and `timezone.now()` otherwise, `months_between` is the
`relativedelta` whole-month difference plus one ("include current
month"), and the series comes from `get_period_counts_legacy`, defaulted
to `[]` when that helper returns `None`. -/
def productTypeCreatorPopulate (w : World) (user : DojoUserRec) (host teamName : String)
    (parameters : List (String × String)) (productType : ProductTypeRec)
    (rootFilter : ProductTypeRec → Bool) (findingFilter : FindingRecord → Bool)
    (inclNotes inclImages inclSummary inclToc : Bool) (now : DateTimeV) :
    ProductTypeCreatorState :=
  let qs := w.productTypes.filter rootFilter
  let subtitle := match qs with
    | [] => ""
    | pt :: _ => pt.name
  let title := "Product_Type Report"
  let reportName := title ++ ": " ++ subtitle
  let base : Ctx :=
    [("host", .vStr host), ("title", .vStr title), ("subtitle", .vStr subtitle),
     ("report_name", .vStr reportName), ("user", userToValue user),
     ("team_name", .vStr teamName), ("parameters", paramsValue parameters),
     ("include_finding_notes", boolValue inclNotes),
     ("include_finding_images", boolValue inclImages),
     ("include_executive_summary", boolValue inclSummary),
     ("include_table_of_contents", boolValue inclToc)]
  let findings := (w.findings.filter fun f => findingUnderProductType w f productType.id).filter
    findingFilter
  let products := w.products.filter fun p =>
    p.prodType == productType.id &&
      findings.any fun f => findingProductId w f == some p.id
  let tests := w.tests.filter fun t => findings.any fun f => f.test == t.id
  let engagements := w.engagements.filter fun e =>
    w.tests.any fun t => t.engagement == e.id && findings.any fun f => f.test == t.id
  let startDate := match findings.getLast? with
    | some f => dtAtMidnight f.date
    | none => now
  let monthsBetween := relativedeltaMonths now startDate + 1
  let counts := getPeriodCountsLegacy findings findings none monthsBetween startDate
  let opened := match counts with
    | none => []
    | some c => c.openedPerPeriod
  { user := user, rootQs := qs, findings := findings, startDate := startDate,
    monthsBetween := monthsBetween, openedPerMonth := opened,
    baseContext := ctxUpdate base
      [("product_type", productTypeToValue productType),
       ("products", .vList (products.map productToValue)),
       ("engagements", .vList (engagements.map engagementToValue)),
       ("tests", .vList (tests.map testToValue)),
       ("findings", .vList (findings.map findingToValue)),
       ("endpoint_opened_per_month", .vList (opened.map fun n => .vNum n)),
       ("endpoint_active_findings", .vList (findings.map findingToValue))] }

/-! ## The asynchronous PDF job (`dojo/tasks.py`, `async_pdf_report`) -/

/-- A Python exception as the job's `except` clauses distinguish them:
`IOError` or any other `Exception`. -/
inductive PyErr where
  | ioError (msg : String)
  | exc (msg : String)
  deriving DecidableEq, Repr

/-- A persisted `Report` row, restricted to the fields the job touches. -/
structure ReportRec where
  name : String
  status : String
  file : Option String
  doneDatetime : Option DateTimeV
  taskId : Option Nat
  deriving DecidableEq, Repr

/-- Modelled from the spec: the `Report` model lives in `dojo/models.py`,
which is not under `src/`; `PdfReportRenderer.perform_rendering` creates
the row without passing `status`, `file` or `done_datetime`, and the spec
states a Report is "Created before the async job starts" with status
`pending`, its `file` payload and completion timestamp unset. -/
def reportCreate (name : String) : ReportRec :=
  { name := name, status := "pending", file := none, doneDatetime := none, taskId := none }

/-- A call to `create_notification`: the event tag and the `url` argument
(the success notification passes the report's URL, the generic alert from
`log_generic_alert` passes none). -/
structure Notif where
  event : String
  url : Option String
  deriving DecidableEq, Repr

/-- The behaviour of the external collaborators during one job run:
whether `pdfkit.configuration` raises (it raises `IOError` when the
`wkhtmltopdf` executable is missing), what `render_to_string` does, what
`pdfkit.from_string` does, and the value of `timezone.now()`. -/
structure JobEnv where
  configResult : Except PyErr Unit
  renderResult : Except PyErr String
  convertResult : Except PyErr String
  now : DateTimeV

/-- What one run of `async_pdf_report` produced: whether the job body ran
to its `return True`, the exception that escaped the task if one did, the
final in-memory report, every persisted report state in order (one entry
per `report.save()` / `report.file.save(...)`), and the notifications
emitted. -/
structure JobOutcome where
  returnedTrue : Bool
  propagated : Option PyErr
  report : ReportRec
  savedStates : List ReportRec
  notifs : List Notif
  deriving DecidableEq, Repr

/-- The shared `except IOError` / `except Exception` tail of the job:
set `report.status = 'error'`, save it, and emit one generic alert via
`log_generic_alert` (a `create_notification(event='other', ...)` call);
the logged message differs between the two clauses but the persisted
state and the notification count do not.  The job then reaches
`return True`. -/
def jobFail (r : ReportRec) (saves : List ReportRec) (_e : PyErr) : JobOutcome :=
  let r' := { r with status := "error" }
  { returnedTrue := true, propagated := none, report := r',
    savedStates := saves ++ [r'], notifs := [⟨"other", none⟩] }

/-- Models `async_pdf_report(self, report, template, filename, report_title,
report_subtitle, report_info, context, uri)` step for step:

* the cover URL `context['host'] + reverse('report_cover_page') + '?' + x`
  is computed **before** the `try` block, so a context without a `'host'`
  key raises a `KeyError` that escapes the task;
* inside `try`: `pdfkit.configuration(...)` (raises `IOError` when the
  converter is not installed), `report.task_id = ...; report.save()`,
  `render_to_string(template, context)`,
  `context['include_table_of_contents']` (a `KeyError` here is caught),
  `pdfkit.from_string(...)`;
* on success: write the PDF to the already-named storage path when
  `report.file.name` is set, else `report.file.save(filename, ...)`
  (which also persists the row), then `status = 'success'`,
  `done_datetime = timezone.now()`, save, and one
  `create_notification(event='report_created', ..., url=uri, ...)`;
* on `IOError` or any other `Exception`: the `jobFail` tail. -/
def asyncPdfReport (env : JobEnv) (taskId : Nat) (report : ReportRec)
    (_template filename _reportTitle _reportSubtitle _reportInfo : String)
    (context : Ctx) (uri : String) : JobOutcome :=
  if ctxHasKey context "host" = false then
    { returnedTrue := false, propagated := some (.exc "KeyError: host"),
      report := report, savedStates := [], notifs := [] }
  else
    match env.configResult with
    | .error e => jobFail report [] e
    | .ok _ =>
      let r1 := { report with taskId := some taskId }
      match env.renderResult with
      | .error e => jobFail r1 [r1] e
      | .ok _ =>
        if ctxHasKey context "include_table_of_contents" = false then
          jobFail r1 [r1] (.exc "KeyError: include_table_of_contents")
        else
          match env.convertResult with
          | .error e => jobFail r1 [r1] e
          | .ok _pdf =>
            match r1.file with
            | some _ =>
              let r3 := { r1 with status := "success", doneDatetime := some env.now }
              { returnedTrue := true, propagated := none, report := r3,
                savedStates := [r1, r3], notifs := [⟨"report_created", some uri⟩] }
            | none =>
              let r2 := { r1 with file := some filename }
              let r3 := { r2 with status := "success", doneDatetime := some env.now }
              { returnedTrue := true, propagated := none, report := r3,
                savedStates := [r1, r2, r3], notifs := [⟨"report_created", some uri⟩] }

/-- One step of the Report status lifecycle: unchanged, or
`pending → success`, or `pending → error`. -/
def statusStepOk (a b : ReportRec) : Prop :=
  a.status = b.status ∨ (a.status = "pending" ∧ (b.status = "success" ∨ b.status = "error"))

instance (a b : ReportRec) : Decidable (statusStepOk a b) := by
  unfold statusStepOk; infer_instance

/-! ## Observation helpers used by the theorems -/

/-- Whether a rendering result is a JSON object holding the given
top-level key. -/
def outHasKey (x : Except Unit Native) (k : String) : Bool :=
  match x with
  | .ok (.nDict d) => (dictGet d k).isSome
  | _ => false

/-- The number of findings in a rendered JSON report. -/
def outFindingsCount (x : Except Unit Native) : Option Nat :=
  match x with
  | .ok (.nDict d) =>
    match dictGet d "findings" with
    | some (.nList xs) => some xs.length
    | _ => none
  | _ => none

/-- The converter's image of a `Finding` row. -/
def findingNative (f : FindingRecord) : Native :=
  .nDict [(.nStr "id", .nNum f.id), (.nStr "title", .nStr f.title),
          (.nStr "date", .nStr (formatDate f.date)), (.nStr "severity", .nStr f.severity),
          (.nStr "test", .nNum f.test)]

/-- The converter's image of an `Engagement` row. -/
def engagementNative (e : EngagementRec) : Native :=
  .nDict [(.nStr "id", .nNum e.id), (.nStr "name", .nStr e.name),
          (.nStr "product", .nNum e.product)]

/-- The converter's image of a `Test` row. -/
def testNative (t : TestRecord) : Native :=
  .nDict [(.nStr "id", .nNum t.id), (.nStr "engagement", .nNum t.engagement),
          (.nStr "test_type", .nStr t.testType)]

/-- The converter's image of a `Product` row. -/
def productNative (p : ProductRec) : Native :=
  .nDict [(.nStr "id", .nNum p.id), (.nStr "name", .nStr p.name),
          (.nStr "prod_type", .nNum p.prodType)]

/-- The world of C1's failing input: one product type, one product whose
`authorized_users` set is EMPTY, one engagement, one test, one finding. -/
def c1World : World :=
  { productTypes := [⟨1, "Web"⟩],
    products := [⟨1, "MyWebProduct", 1, []⟩],
    engagements := [⟨1, "Eng", 1⟩],
    tests := [⟨1, 1, "SAST"⟩],
    findings := [⟨1, "Voodoo magic happened", ⟨2020, 1, 2⟩, "High", 1⟩] }

/-- C1's failing input: user 7 is NOT in the product's authorized-user
set, yet requests a Product-scoped report over `c1World`. -/
def c1State : ProductCreatorState :=
  productCreatorPopulate c1World ⟨7, "mallory", "Mal", "Lory", "pw"⟩ "host.local" "team" []
    ⟨1, "MyWebProduct", 1, []⟩ (fun _ => true) (fun _ => true) false false false false

/-- C2's concrete renderer: a one-row queryset, report type `finding`,
constructed without an explicit `initial_context` (shared default). -/
def c2Renderer : RState :=
  { queryset := Value.vList [Value.vModel [("id", Value.vNum 1)]],
    reportType := "finding", initialCtx := 0, context := none }

/-- C8's concrete world: one product type with one finding opened on
2020-01-02 (the date of `c8Now`). -/
def c8World : World :=
  { productTypes := [⟨1, "Web"⟩],
    products := [⟨1, "MyWebProduct", 1, [7]⟩],
    engagements := [⟨1, "Eng", 1⟩],
    tests := [⟨1, 1, "SAST"⟩],
    findings := [⟨1, "Fresh finding", ⟨2020, 1, 2⟩, "High", 1⟩] }

/-- C8's `timezone.now()`: mid-morning of the single finding's date. -/
def c8Now : DateTimeV := ⟨2020, 1, 2, 10, 30, 0, 0⟩

end DojoReport

open DojoReport

/-- A `strftime`-emitted digit reads back as itself. -/
lemma digitVal_digitChar (n : Nat) (h : n < 10) :
    digitVal (Nat.digitChar n) = some n := by
  interval_cases n <;> rfl

/-- A zero-padded two-digit field round-trips through `strptime`. -/
lemma num2_pad (n : Nat) (h : n < 100) :
    num2 (Nat.digitChar (n / 10 % 10)) (Nat.digitChar (n % 10)) = some n := by
  have h1 : n / 10 % 10 < 10 := Nat.mod_lt _ (by norm_num)
  have h2 : n % 10 < 10 := Nat.mod_lt _ (by norm_num)
  rw [num2, digitVal_digitChar _ h1, digitVal_digitChar _ h2]
  simp only [Option.bind_eq_bind, Option.some_bind, Option.pure_def]
  congr 1
  omega

/-- A zero-padded four-digit field round-trips through `strptime`. -/
lemma num4_pad (n : Nat) (h : n < 10000) :
    num4 (Nat.digitChar (n / 1000 % 10)) (Nat.digitChar (n / 100 % 10))
      (Nat.digitChar (n / 10 % 10)) (Nat.digitChar (n % 10)) = some n := by
  have h1 : n / 1000 % 10 < 10 := Nat.mod_lt _ (by norm_num)
  have h2 : n / 100 % 10 < 10 := Nat.mod_lt _ (by norm_num)
  have h3 : n / 10 % 10 < 10 := Nat.mod_lt _ (by norm_num)
  have h4 : n % 10 < 10 := Nat.mod_lt _ (by norm_num)
  rw [num4, digitVal_digitChar _ h1, digitVal_digitChar _ h2,
    digitVal_digitChar _ h3, digitVal_digitChar _ h4]
  simp only [Option.bind_eq_bind, Option.some_bind, Option.pure_def]
  congr 1
  omega

/-- Models `strptime(strftime(d, '%Y-%m-%dT%H:%M:%S'), same)` recovers a valid
datetime up to second precision. -/
lemma parse_format_datetime (d : DateTimeV) (h : ValidDateTime d) :
    parseDateTime (formatDateTime d) = some (truncDateTime d) := by
  obtain ⟨hy1, hy2, hm1, hm2, hd1, hd2, hh, hmi, hs⟩ := h
  show parseDateTimeChars (formatDateTime d).data = _
  have hdata : (formatDateTime d).data =
      [Nat.digitChar (d.year / 1000 % 10), Nat.digitChar (d.year / 100 % 10),
       Nat.digitChar (d.year / 10 % 10), Nat.digitChar (d.year % 10), '-',
       Nat.digitChar (d.month / 10 % 10), Nat.digitChar (d.month % 10), '-',
       Nat.digitChar (d.day / 10 % 10), Nat.digitChar (d.day % 10), 'T',
       Nat.digitChar (d.hour / 10 % 10), Nat.digitChar (d.hour % 10), ':',
       Nat.digitChar (d.minute / 10 % 10), Nat.digitChar (d.minute % 10), ':',
       Nat.digitChar (d.second / 10 % 10), Nat.digitChar (d.second % 10)] := rfl
  rw [hdata, parseDateTimeChars]
  rw [if_pos (by exact ⟨rfl, rfl, rfl, rfl, rfl⟩)]
  rw [num4_pad _ (by omega), num2_pad _ (by omega), num2_pad _ (by omega),
    num2_pad _ (by omega), num2_pad _ (by omega), num2_pad _ (by omega)]
  simp only [Option.bind_eq_bind, Option.some_bind]
  rw [if_pos (by omega)]
  rfl

/-- Models `strptime(strftime(d, '%Y-%m-%d'), same)` recovers a valid date. -/
lemma parse_format_date (d : DateV) (h : ValidDate d) :
    parseDate (formatDate d) = some d := by
  obtain ⟨hy1, hy2, hm1, hm2, hd1, hd2⟩ := h
  show parseDateChars (formatDate d).data = _
  have hdata : (formatDate d).data =
      [Nat.digitChar (d.year / 1000 % 10), Nat.digitChar (d.year / 100 % 10),
       Nat.digitChar (d.year / 10 % 10), Nat.digitChar (d.year % 10), '-',
       Nat.digitChar (d.month / 10 % 10), Nat.digitChar (d.month % 10), '-',
       Nat.digitChar (d.day / 10 % 10), Nat.digitChar (d.day % 10)] := rfl
  rw [hdata, parseDateChars]
  rw [if_pos (by exact ⟨rfl, rfl⟩)]
  rw [num4_pad _ (by omega), num2_pad _ (by omega), num2_pad _ (by omega)]
  simp only [Option.bind_eq_bind, Option.some_bind]
  rw [if_pos (by omega)]

/-- Models `strptime(strftime(t, '%H:%M:%S'), same)` recovers a valid time up
to second precision. -/
lemma parse_format_time (t : TimeV) (h : ValidTime t) :
    parseTime (formatTime t) = some (truncTime t) := by
  obtain ⟨hh, hmi, hs⟩ := h
  show parseTimeChars (formatTime t).data = _
  have hdata : (formatTime t).data =
      [Nat.digitChar (t.hour / 10 % 10), Nat.digitChar (t.hour % 10), ':',
       Nat.digitChar (t.minute / 10 % 10), Nat.digitChar (t.minute % 10), ':',
       Nat.digitChar (t.second / 10 % 10), Nat.digitChar (t.second % 10)] := rfl
  rw [hdata, parseTimeChars]
  rw [if_pos (by exact ⟨rfl, rfl⟩)]
  rw [num2_pad _ (by omega), num2_pad _ (by omega), num2_pad _ (by omega)]
  simp only [Option.bind_eq_bind, Option.some_bind]
  rw [if_pos (by omega)]
  rfl

/-- C7: the converter renders datetimes as `%Y-%m-%dT%H:%M:%S`, dates as
`%Y-%m-%d` and times as `%H:%M:%S`, and reparsing each resulting string
with the stated format recovers the original value to second precision
(microseconds are dropped, every other field survives). -/
theorem c7_date_time_round_trip :
    (∀ (d : DateTimeV) (ie : Bool),
      convert (Value.vDateTime d) ie = Except.ok (Native.nStr (formatDateTime d))) ∧
      (∀ (d : DateV) (ie : Bool),
        convert (Value.vDate d) ie = Except.ok (Native.nStr (formatDate d))) ∧
      (∀ (t : TimeV) (ie : Bool),
        convert (Value.vTime t) ie = Except.ok (Native.nStr (formatTime t))) ∧
      (∀ d : DateTimeV, ValidDateTime d →
        parseDateTime (formatDateTime d) = some (truncDateTime d)) ∧
      (∀ d : DateV, ValidDate d → parseDate (formatDate d) = some d) ∧
      (∀ t : TimeV, ValidTime t → parseTime (formatTime t) = some (truncTime t)) :=
  ⟨fun _ _ => rfl, fun _ _ => rfl, fun _ _ => rfl,
    parse_format_datetime, parse_format_date, parse_format_time⟩

/-- Witness for C7 at a concrete datetime (with microseconds), date and
time. -/
theorem c7_witness :
    parseDateTime (formatDateTime ⟨2020, 5, 17, 13, 45, 9, 123456⟩) =
        some ⟨2020, 5, 17, 13, 45, 9, 0⟩ ∧
      parseDate (formatDate ⟨1999, 12, 31⟩) = some ⟨1999, 12, 31⟩ ∧
      parseTime (formatTime ⟨23, 0, 59, 7⟩) = some ⟨23, 0, 59, 0⟩ :=
  ⟨c7_date_time_round_trip.2.2.2.1 ⟨2020, 5, 17, 13, 45, 9, 123456⟩ (by decide),
    c7_date_time_round_trip.2.2.2.2.1 ⟨1999, 12, 31⟩ (by decide),
    c7_date_time_round_trip.2.2.2.2.2 ⟨23, 0, 59, 7⟩ (by decide)⟩

/-- Each always-successful leaf conversion produces some native value. -/
lemma leafConvertible_ok (v : Value) (h : leafConvertible v = true) :
    ∃ n, convert v false = Except.ok n := by
  cases v <;> first
    | exact ⟨_, rfl⟩
    | exact absurd h (by simp [leafConvertible])

/-- Models `convert_model_typed_object` over leaf-valued fields succeeds and
keeps exactly the non-excluded field names, in order. -/
lemma convertFields_leaf (fs : List (String × Value)) (excl : List String)
    (h : ∀ p ∈ fs, leafConvertible p.2 = true) :
    ∃ d, convertFields fs excl = Except.ok d ∧
      dictKeys d = (fs.map Prod.fst).filter (fun n => decide (n ∉ excl)) := by
  induction fs with
  | nil => exact ⟨[], rfl, rfl⟩
  | cons p rest ih =>
    obtain ⟨n, v⟩ := p
    obtain ⟨d', hd', hk⟩ := ih fun q hq => h q (List.mem_cons_of_mem _ hq)
    obtain ⟨nv, hnv⟩ := leafConvertible_ok v (h (n, v) (List.mem_cons_self _ _))
    by_cases hmem : n ∈ excl
    · refine ⟨d', ?_, ?_⟩
      · simp [convertFields, hmem, hd']
      · rw [hk]
        simp [List.filter_cons, hmem]
    · refine ⟨(.nStr n, nv) :: d', ?_, ?_⟩
      · simp only [convertFields, hmem, if_false, hnv, hd', reduceIte]
        rfl
      · have hcons : dictKeys ((Native.nStr n, nv) :: d') = n :: dictKeys d' := rfl
        rw [hcons, hk]
        simp [List.filter_cons, hmem]

/-- C9: converting a user-account record (`AbstractUser` instance whose
field values are convertible leaves) yields a field map whose keys are
exactly the record's locally declared field names minus `password`: the
credential never appears, every other field does. -/
theorem c9_user_conversion_excludes_password (fs : List (String × Value)) (ie : Bool)
    (h : ∀ p ∈ fs, leafConvertible p.2 = true) :
    ∃ d, convert (Value.vUser fs) ie = Except.ok (Native.nDict d) ∧
      dictKeys d = (fs.map Prod.fst).filter (fun n => n != "password") ∧
      "password" ∉ dictKeys d ∧
      ∀ n ∈ fs.map Prod.fst, n ≠ "password" → n ∈ dictKeys d := by
  obtain ⟨d, hd, hk⟩ := convertFields_leaf fs ["password"] h
  have hk' : dictKeys d = (fs.map Prod.fst).filter (fun n => n != "password") := by
    rw [hk]
    apply List.filter_congr
    intro m _
    by_cases hm : m = "password"
    · subst hm
      simp
    · simp [hm]
  refine ⟨d, ?_, hk', ?_, ?_⟩
  · show (convertFields fs ["password"]).map Native.nDict = _
    rw [hd]
    rfl
  · rw [hk']
    intro hmem
    have := (List.mem_filter.mp hmem).2
    simp at this
  · intro n hn hne
    rw [hk']
    exact List.mem_filter.mpr ⟨hn, by simp [hne]⟩

/-- Witness for C9 at a concrete user record with a `password` field. -/
theorem c9_witness :
    ∃ d, convert (userToValue ⟨1, "alice", "Ada", "Lovelace", "secret"⟩) false =
        Except.ok (Native.nDict d) ∧
      dictKeys d = ([("id", Value.vNum 1), ("username", Value.vStr "alice"),
          ("first_name", Value.vStr "Ada"), ("last_name", Value.vStr "Lovelace"),
          ("password", Value.vStr "secret")].map Prod.fst).filter (fun n => n != "password") ∧
      "password" ∉ dictKeys d ∧
      ∀ n ∈ [("id", Value.vNum 1), ("username", Value.vStr "alice"),
          ("first_name", Value.vStr "Ada"), ("last_name", Value.vStr "Lovelace"),
          ("password", Value.vStr "secret")].map Prod.fst,
        n ≠ "password" → n ∈ dictKeys d :=
  c9_user_conversion_excludes_password
    [("id", Value.vNum 1), ("username", Value.vStr "alice"),
     ("first_name", Value.vStr "Ada"), ("last_name", Value.vStr "Lovelace"),
     ("password", Value.vStr "secret")] false (by decide)

/-- C6: the claim says an unconvertible leaf nested inside a mapping or
iterable is silently omitted when `ignore_errors` is requested; but the
recursive calls in `convert_to_native_type` pass no `ignore_errors`
argument, so a list holding one unconvertible element raises even with
`ignore_errors=True`. -/
theorem c6_counterexample :
    convert (Value.vList [Value.vUnknown 0]) true = Except.error () ∧
      convert (Value.vDict [(Value.vStr "k", Value.vUnknown 0)]) true = Except.error () :=
  ⟨rfl, rfl⟩

/-- C6 (amended): `ignore_errors` suppresses the unsupported-type error
only for the value passed directly to the converter — the call then
returns `None` for it; the recursive conversions of mapping keys/values
and iterable elements run with `ignore_errors=False`, so an
unconvertible leaf at nesting depth one or more raises regardless. -/
theorem c6_ignore_errors_only_top_level (v : Value)
    (h : unconvertibleLeaf v = true) :
    convert v true = Except.ok Native.nNone ∧
      convert v false = Except.error () ∧
      convert (Value.vList [v]) true = Except.error () ∧
      convert (Value.vDict [(Value.vStr "k", v)]) true = Except.error () := by
  cases v <;> first
    | exact ⟨rfl, rfl, rfl, rfl⟩
    | exact absurd h (by simp [unconvertibleLeaf])

/-- Witness for C6's amended theorem at the concrete unconvertible
object tagged `0`. -/
theorem c6_witness :
    convert (Value.vUnknown 0) true = Except.ok Native.nNone ∧
      convert (Value.vUnknown 0) false = Except.error () ∧
      convert (Value.vList [Value.vUnknown 0]) true = Except.error () ∧
      convert (Value.vDict [(Value.vStr "k", Value.vUnknown 0)]) true = Except.error () :=
  c6_ignore_errors_only_top_level (Value.vUnknown 0) rfl

/-- C3: the claim quantifies over every input, but the cover-page URL
`context['host'] + reverse('report_cover_page') + '?' + x` is computed
before the `try` block of `async_pdf_report`, so a context without a
`'host'` key raises a `KeyError` that escapes the task instead of
returning the completion signal. -/
theorem c3_counterexample :
    (asyncPdfReport ⟨Except.ok (), Except.ok "", Except.ok "", ⟨2020, 1, 1, 0, 0, 0, 0⟩⟩
        1 (reportCreate "R") "tpl" "f.pdf" "" "" "" [] "u").propagated =
      some (PyErr.exc "KeyError: host") ∧
      (asyncPdfReport ⟨Except.ok (), Except.ok "", Except.ok "", ⟨2020, 1, 1, 0, 0, 0, 0⟩⟩
          1 (reportCreate "R") "tpl" "f.pdf" "" "" "" [] "u").returnedTrue = false :=
  ⟨rfl, rfl⟩

/-- C3 (amended): once the pre-`try` cover computation succeeds — i.e.
the context has a `'host'` key — the job contains every exception raised
during rendering or conversion and always reaches `return True`: nothing
propagates to the scheduler, whatever the template renderer and the
external converter do. -/
theorem c3_async_job_contains_errors (env : JobEnv) (taskId : Nat) (report : ReportRec)
    (template filename rTitle rSub rInfo : String) (context : Ctx) (uri : String)
    (h : ctxHasKey context "host" = true) :
    (asyncPdfReport env taskId report template filename rTitle rSub rInfo context uri).returnedTrue
        = true ∧
      (asyncPdfReport env taskId report template filename rTitle rSub rInfo context uri).propagated
        = none := by
  unfold asyncPdfReport
  rw [h]
  rcases env with ⟨cfg, rr, cr, now⟩
  rcases cfg with e | u
  · exact ⟨rfl, rfl⟩
  · rcases rr with e | s
    · exact ⟨rfl, rfl⟩
    · by_cases hitoc : ctxHasKey context "include_table_of_contents" = false
      · simp only [hitoc, if_true, if_pos]
        exact ⟨rfl, rfl⟩
      · simp only [hitoc, if_false, if_neg]
        rcases cr with e | pdf
        · exact ⟨rfl, rfl⟩
        · rcases hfile : report.file with _ | f <;> simp only [hfile] <;> exact ⟨rfl, rfl⟩

/-- Witness for C3's amended theorem at a concrete failing converter. -/
theorem c3_witness :
    (asyncPdfReport ⟨Except.ok (), Except.ok "", Except.error (PyErr.ioError "no wkhtmltopdf"),
        ⟨2020, 1, 1, 0, 0, 0, 0⟩⟩ 1 (reportCreate "R") "tpl" "f.pdf" "" "" ""
        [("host", Value.vStr "h")] "u").returnedTrue = true ∧
      (asyncPdfReport ⟨Except.ok (), Except.ok "", Except.error (PyErr.ioError "no wkhtmltopdf"),
          ⟨2020, 1, 1, 0, 0, 0, 0⟩⟩ 1 (reportCreate "R") "tpl" "f.pdf" "" "" ""
          [("host", Value.vStr "h")] "u").propagated = none :=
  c3_async_job_contains_errors _ 1 (reportCreate "R") "tpl" "f.pdf" "" "" ""
    [("host", Value.vStr "h")] "u" rfl

/-- C4: when the job reaches the external converter (context has the
keys the earlier steps read, configuration and template rendering
succeed) on a freshly created Report: a converter exception leaves the
Report in status `error` with `done_datetime` unset and exactly one
generic failure notification; a successful conversion leaves status
`success`, `done_datetime` stamped with `timezone.now()`, and exactly
one `report_created` notification carrying the Report's URL. -/
theorem c4_converter_failure_and_success (env : JobEnv) (taskId : Nat) (report : ReportRec)
    (template filename rTitle rSub rInfo : String) (context : Ctx) (uri : String)
    (hdone : report.doneDatetime = none) (hfile : report.file = none)
    (hhost : ctxHasKey context "host" = true)
    (hitoc : ctxHasKey context "include_table_of_contents" = true)
    (hcfg : env.configResult = Except.ok ())
    (hrender : ∃ s, env.renderResult = Except.ok s) :
    (∀ e, env.convertResult = Except.error e →
      (asyncPdfReport env taskId report template filename rTitle rSub rInfo context uri).report.status
          = "error" ∧
        (asyncPdfReport env taskId report template filename rTitle rSub rInfo context uri).report.doneDatetime
          = none ∧
        (asyncPdfReport env taskId report template filename rTitle rSub rInfo context uri).notifs
          = [⟨"other", none⟩]) ∧
    (∀ s, env.convertResult = Except.ok s →
      (asyncPdfReport env taskId report template filename rTitle rSub rInfo context uri).report.status
          = "success" ∧
        (asyncPdfReport env taskId report template filename rTitle rSub rInfo context uri).report.doneDatetime
          = some env.now ∧
        (asyncPdfReport env taskId report template filename rTitle rSub rInfo context uri).notifs
          = [⟨"report_created", some uri⟩]) := by
  obtain ⟨sr, hsr⟩ := hrender
  unfold asyncPdfReport jobFail
  rw [hhost, hcfg, hsr, hitoc]
  simp only [reduceIte]
  constructor
  · intro e he
    rw [he]
    exact ⟨rfl, by simp [hdone], rfl⟩
  · intro s hs
    rw [hs]
    simp only [hfile]
    exact ⟨rfl, rfl, rfl⟩

/-- Witness for C4 at a concrete environment whose converter raises. -/
theorem c4_witness :
    (asyncPdfReport ⟨Except.ok (), Except.ok "html", Except.error (PyErr.ioError "boom"),
        ⟨2020, 1, 1, 0, 0, 0, 0⟩⟩ 1 (reportCreate "R") "tpl" "f.pdf" "" "" ""
        [("host", Value.vStr "h"), ("include_table_of_contents", boolValue false)]
        "u").report.status = "error" ∧
      (asyncPdfReport ⟨Except.ok (), Except.ok "html", Except.error (PyErr.ioError "boom"),
          ⟨2020, 1, 1, 0, 0, 0, 0⟩⟩ 1 (reportCreate "R") "tpl" "f.pdf" "" "" ""
          [("host", Value.vStr "h"), ("include_table_of_contents", boolValue false)]
          "u").report.doneDatetime = none ∧
      (asyncPdfReport ⟨Except.ok (), Except.ok "html", Except.error (PyErr.ioError "boom"),
          ⟨2020, 1, 1, 0, 0, 0, 0⟩⟩ 1 (reportCreate "R") "tpl" "f.pdf" "" "" ""
          [("host", Value.vStr "h"), ("include_table_of_contents", boolValue false)]
          "u").notifs = [⟨"other", none⟩] :=
  (c4_converter_failure_and_success _ 1 (reportCreate "R") "tpl" "f.pdf" "" "" ""
      [("host", Value.vStr "h"), ("include_table_of_contents", boolValue false)] "u"
      rfl rfl rfl rfl rfl ⟨"html", rfl⟩).1 (PyErr.ioError "boom") rfl

/-- C5: the claim requires `file` populated iff status is `success` at
every point, but in the success path `report.file.save(filename, ...)`
persists the file before `report.status = 'success'` is assigned: the
run below persists an intermediate state whose `file` is set while its
status is still `pending`. -/
theorem c5_counterexample :
    ¬ (∀ r ∈ (asyncPdfReport ⟨Except.ok (), Except.ok "html", Except.ok "pdfbytes",
        ⟨2020, 1, 1, 0, 0, 0, 0⟩⟩ 1 (reportCreate "R") "tpl" "f.pdf" "" "" ""
        [("host", Value.vStr "h"), ("include_table_of_contents", boolValue false)]
        "u").savedStates, (r.file ≠ none ↔ r.status = "success")) := by
  decide

/-- C5 (amended): starting from a freshly created Report, the status
only ever steps `pending → success` or `pending → error` along the
persisted trace and is never reversed, and `file` is populated iff the
status is `success` once the job has finished — but not at every
intermediate point (see the counterexample). -/
theorem c5_status_lifecycle (env : JobEnv) (taskId : Nat) (name : String)
    (template filename rTitle rSub rInfo : String) (context : Ctx) (uri : String) :
    List.Chain' statusStepOk (reportCreate name ::
        (asyncPdfReport env taskId (reportCreate name) template filename rTitle rSub rInfo
          context uri).savedStates) ∧
      ((asyncPdfReport env taskId (reportCreate name) template filename rTitle rSub rInfo
            context uri).report.file ≠ none ↔
        (asyncPdfReport env taskId (reportCreate name) template filename rTitle rSub rInfo
            context uri).report.status = "success") := by
  unfold asyncPdfReport jobFail
  by_cases hhost : ctxHasKey context "host" = false
  · simp [hhost, reportCreate]
  · simp only [hhost, reduceIte]
    rcases env with ⟨cfg, rr, cr, now⟩
    rcases cfg with e | u
    · simp [reportCreate, statusStepOk]
    · rcases rr with e | s
      · simp [reportCreate, statusStepOk]
      · by_cases hitoc : ctxHasKey context "include_table_of_contents" = false
        · simp [hitoc, reportCreate, statusStepOk]
        · simp only [hitoc, reduceIte]
          rcases cr with e | pdf
          · simp [reportCreate, statusStepOk]
          · simp [reportCreate, statusStepOk]

/-- C1: the claim requires a Product-scoped report for a user outside
the product's authorized-user set to contain zero findings; but
`add_authorizing_filter` narrows only the root queryset `_queryset`,
while the report's `findings` are resolved from the passed product
unfiltered, so the unauthorized user's rendered report still carries the
matching finding.  (EndpointReportCreator shares the same structure, its
filter likewise touching only `_queryset`.)  Here: the root queryset is
correctly emptied, yet both the populated context and the rendered JSON
expose the product's finding. -/
theorem c1_unauthorized_user_still_gets_findings :
    c1State.rootQs = [] ∧
      ctxGet c1State.baseContext "findings" =
        some (Value.vList [findingToValue ⟨1, "Voodoo magic happened", ⟨2020, 1, 2⟩, "High", 1⟩]) ∧
      outFindingsCount (productCreatorRenderJson moduleHeap c1State).2 = some 1 :=
  ⟨rfl, rfl, rfl⟩

/-- C2: the claim says JSON rendering returns the serialization of the
merged mapping (the renderer-built context holding `objects`, merged
with the caller's update); but `ReportRenderer.render` passes
`context_update` — not the merged `context` — to `perform_rendering`,
so the output serializes the update alone and lacks `objects`, while the
merged mapping (still stored in the shared context) does hold it. -/
theorem c2_counterexample :
    mkJsonRenderer (Value.vList [Value.vModel [("id", Value.vNum 1)]]) "finding" none =
        Except.ok c2Renderer ∧
      (rendererRenderJson moduleHeap c2Renderer [("title", Value.vStr "T")]).2.2 =
        Except.ok (Native.nDict [(Native.nStr "title", Native.nStr "T")]) ∧
      outHasKey (rendererRenderJson moduleHeap c2Renderer [("title", Value.vStr "T")]).2.2
        "objects" = false ∧
      outHasKey (convert (ctxValue (readRef
        (rendererRenderJson moduleHeap c2Renderer [("title", Value.vStr "T")]).1 0)) false)
        "objects" = true ∧
      (rendererRenderJson moduleHeap c2Renderer [("title", Value.vStr "T")]).2.2 ≠
        convert (ctxValue (readRef
          (rendererRenderJson moduleHeap c2Renderer [("title", Value.vStr "T")]).1 0)) false := by
  refine ⟨rfl, rfl, rfl, rfl, ?_⟩
  intro heq
  have h1 : outHasKey
      (rendererRenderJson moduleHeap c2Renderer [("title", Value.vStr "T")]).2.2
      "objects" = false := rfl
  rw [heq] at h1
  exact absurd h1 (by decide)

/-- A finding row converts to its field map. -/
lemma convert_findingToValue (f : FindingRecord) :
    convert (findingToValue f) false = Except.ok (findingNative f) := rfl

/-- An engagement row converts to its field map. -/
lemma convert_engagementToValue (e : EngagementRec) :
    convert (engagementToValue e) false = Except.ok (engagementNative e) := rfl

/-- A test row converts to its field map. -/
lemma convert_testToValue (t : TestRecord) :
    convert (testToValue t) false = Except.ok (testNative t) := rfl

/-- A product row converts to its field map. -/
lemma convert_productToValue (p : ProductRec) :
    convert (productToValue p) false = Except.ok (productNative p) := rfl

/-- A user row converts to its field map without the credential. -/
lemma convert_userToValue (u : DojoUserRec) :
    convert (userToValue u) false = Except.ok (Native.nDict
      [(.nStr "id", .nNum u.id), (.nStr "username", .nStr u.username),
       (.nStr "first_name", .nStr u.firstName), (.nStr "last_name", .nStr u.lastName)]) := rfl

/-- A list of finding rows converts elementwise. -/
lemma convert_vList_findings (l : List FindingRecord) :
    convert (Value.vList (l.map findingToValue)) false =
      Except.ok (Native.nList (l.map findingNative)) := by
  have h : convertList (l.map findingToValue) = Except.ok (l.map findingNative) := by
    induction l with
    | nil => rfl
    | cons f rest ih =>
      simp only [List.map_cons, convertList, convert_findingToValue, ih]
      rfl
  show (convertList (l.map findingToValue)).map Native.nList = _
  rw [h]
  rfl

/-- A list of engagement rows converts elementwise. -/
lemma convert_vList_engagements (l : List EngagementRec) :
    convert (Value.vList (l.map engagementToValue)) false =
      Except.ok (Native.nList (l.map engagementNative)) := by
  have h : convertList (l.map engagementToValue) = Except.ok (l.map engagementNative) := by
    induction l with
    | nil => rfl
    | cons e rest ih =>
      simp only [List.map_cons, convertList, convert_engagementToValue, ih]
      rfl
  show (convertList (l.map engagementToValue)).map Native.nList = _
  rw [h]
  rfl

/-- A list of test rows converts elementwise. -/
lemma convert_vList_tests (l : List TestRecord) :
    convert (Value.vList (l.map testToValue)) false =
      Except.ok (Native.nList (l.map testNative)) := by
  have h : convertList (l.map testToValue) = Except.ok (l.map testNative) := by
    induction l with
    | nil => rfl
    | cons t rest ih =>
      simp only [List.map_cons, convertList, convert_testToValue, ih]
      rfl
  show (convertList (l.map testToValue)).map Native.nList = _
  rw [h]
  rfl

/-- A parameter dictionary converts pairwise. -/
lemma convert_paramsValue (ps : List (String × String)) :
    convert (paramsValue ps) false =
      Except.ok (Native.nDict (ps.map fun p => (Native.nStr p.1, Native.nStr p.2))) := by
  have h : convertPairs (ps.map fun p => (Value.vStr p.1, Value.vStr p.2)) =
      Except.ok (ps.map fun p => (Native.nStr p.1, Native.nStr p.2)) := by
    induction ps with
    | nil => rfl
    | cons p rest ih =>
      simp only [List.map_cons, convertPairs, ih]
      rfl
  show (convertPairs (ps.map fun p => (Value.vStr p.1, Value.vStr p.2))).map Native.nDict = _
  rw [h]
  rfl

/-- A binding of `d[k] = v` was already in `d` or is the new pair. -/
lemma mem_ctxSet (q : String × Value) (c : Ctx) (k : String) (v : Value)
    (h : q ∈ ctxSet c k v) : q ∈ c ∨ q = (k, v) := by
  unfold ctxSet at h
  split at h
  · obtain ⟨p, hp, hq⟩ := List.mem_map.mp h
    by_cases hk : p.1 = k
    · right
      rw [← hq]
      simp [hk]
    · left
      rw [← hq]
      simpa [hk] using hp
  · rcases List.mem_append.mp h with h1 | h2
    · left
      exact h1
    · right
      simpa using h2

/-- A binding of `d.update(u)` comes from `d` or from `u`. -/
lemma mem_ctxUpdate (q : String × Value) (c u : Ctx) (h : q ∈ ctxUpdate c u) :
    q ∈ c ∨ q ∈ u := by
  induction u generalizing c with
  | nil => exact Or.inl h
  | cons p rest ih =>
    rcases ih (ctxSet c p.1 p.2) h with h1 | h2
    · rcases mem_ctxSet q c p.1 p.2 h1 with h3 | h4
      · exact Or.inl h3
      · exact Or.inr (by rw [h4]; exact List.mem_cons_self _ _)
    · exact Or.inr (List.mem_cons_of_mem _ h2)

/-- Converting a dictionary of convertible values succeeds, with one
output pair per input pair, keys preserved in order. -/
lemma convertPairs_ctx (c : Ctx) (h : ∀ p ∈ c, ∃ n, convert p.2 false = Except.ok n) :
    ∃ d, convertPairs (c.map fun q => (Value.vStr q.1, q.2)) = Except.ok d ∧
      dictKeys d = c.map Prod.fst := by
  induction c with
  | nil => exact ⟨[], rfl, rfl⟩
  | cons p rest ih =>
    obtain ⟨d', hd', hk⟩ := ih fun q hq => h q (List.mem_cons_of_mem _ hq)
    obtain ⟨nv, hnv⟩ := h p (List.mem_cons_self _ _)
    refine ⟨(.nStr p.1, nv) :: d', ?_, ?_⟩
    · have hkk : convert (Value.vStr p.1) false = Except.ok (Native.nStr p.1) := rfl
      simp only [List.map_cons, convertPairs, hkk, hnv, hd']
      rfl
    · have hcons : dictKeys ((Native.nStr p.1, nv) :: d') = p.1 :: dictKeys d' := rfl
      rw [hcons, hk]
      rfl

/-- Models `json.dumps(convert_to_native_type(context))` of a context of
convertible values is a JSON object listing exactly the context's keys. -/
lemma convert_ctx_keys (c : Ctx) (h : ∀ p ∈ c, ∃ n, convert p.2 false = Except.ok n) :
    ∃ d, convert (ctxValue c) false = Except.ok (Native.nDict d) ∧
      dictKeys d = c.map Prod.fst := by
  obtain ⟨d, hd, hk⟩ := convertPairs_ctx c h
  refine ⟨d, ?_, hk⟩
  show (convertPairs (c.map fun q => (Value.vStr q.1, q.2))).map Native.nDict = _
  rw [hd]
  rfl

/-- C2 (amended): JSON rendering serializes the caller-supplied context
update alone — `perform_rendering` receives `context_update`, not the
merged context.  Through the creator pipeline that update is the
creator's base context, so the JSON object's top-level keys do include
`title`, `user`, `team_name`, `parameters` and the scope-specific keys
(`findings`, `product`); the `objects` field is written into the
renderer's internal (shared) context but never appears in the output. -/
theorem c2_render_serializes_update_only :
    (∀ (hp : Heap) (st : RState) (upd : Ctx),
      (rendererRenderJson hp st upd).2.2 = convert (ctxValue upd) false) ∧
      (∀ (w : World) (user : DojoUserRec) (host teamName : String)
          (parameters : List (String × String)) (product : ProductRec)
          (rootFilter : ProductRec → Bool) (findingFilter : FindingRecord → Bool)
          (b1 b2 b3 b4 : Bool) (hp : Heap),
        ∃ d, (productCreatorRenderJson hp (productCreatorPopulate w user host teamName
              parameters product rootFilter findingFilter b1 b2 b3 b4)).2 =
            Except.ok (Native.nDict d) ∧
          "title" ∈ dictKeys d ∧ "user" ∈ dictKeys d ∧ "team_name" ∈ dictKeys d ∧
          "parameters" ∈ dictKeys d ∧ "findings" ∈ dictKeys d ∧ "product" ∈ dictKeys d ∧
          "objects" ∉ dictKeys d) := by
  constructor
  · intro hp st upd
    rfl
  · intro w user host teamName parameters product rootFilter findingFilter b1 b2 b3 b4 hp
    have hctx : ∀ p ∈ (productCreatorPopulate w user host teamName parameters product
        rootFilter findingFilter b1 b2 b3 b4).baseContext,
        ∃ n, convert p.2 false = Except.ok n := by
      intro p hpmem
      simp only [productCreatorPopulate] at hpmem
      rcases mem_ctxUpdate _ _ _ hpmem with h1 | h2
      · simp only [List.mem_cons, List.not_mem_nil, or_false] at h1
        rcases h1 with rfl | rfl | rfl | rfl | rfl | rfl | rfl | rfl | rfl | rfl | rfl
        · exact ⟨_, rfl⟩
        · exact ⟨_, rfl⟩
        · exact ⟨_, rfl⟩
        · exact ⟨_, rfl⟩
        · exact ⟨_, convert_userToValue user⟩
        · exact ⟨_, rfl⟩
        · exact ⟨_, convert_paramsValue parameters⟩
        · exact ⟨_, rfl⟩
        · exact ⟨_, rfl⟩
        · exact ⟨_, rfl⟩
        · exact ⟨_, rfl⟩
      · simp only [List.mem_cons, List.not_mem_nil, or_false] at h2
        rcases h2 with rfl | rfl | rfl | rfl
        · exact ⟨_, convert_productToValue product⟩
        · exact ⟨_, convert_vList_engagements _⟩
        · exact ⟨_, convert_vList_tests _⟩
        · exact ⟨_, convert_vList_findings _⟩
    obtain ⟨d, hd, hk⟩ := convert_ctx_keys _ hctx
    have hkeys : dictKeys d =
        ["host", "title", "subtitle", "report_name", "user", "team_name", "parameters",
         "include_finding_notes", "include_finding_images", "include_executive_summary",
         "include_table_of_contents", "product", "engagements", "tests", "findings"] := by
      rw [hk]
      rfl
    refine ⟨d, hd, ?_, ?_, ?_, ?_, ?_, ?_, ?_⟩ <;> rw [hkeys] <;> decide

/-- The whole-month `relativedelta` difference is nonnegative whenever
the start is chronologically no later than the end. -/
lemma relativedeltaMonths_nonneg (a b : DateTimeV) (h : dtChronLe a b) :
    0 ≤ relativedeltaMonths b a := by
  simp only [relativedeltaMonths]
  rcases h with h1 | ⟨h1, h2⟩ <;> split <;> omega

/-- The `relativedelta` month difference between a moment and the
midnight of its own date is zero. -/
lemma relativedeltaMonths_now_midnight (now : DateTimeV) :
    relativedeltaMonths now (dtAtMidnight (dateOfDT now)) = 0 := by
  unfold relativedeltaMonths
  rw [if_neg]
  · simp [monthIdx, dtAtMidnight, dateOfDT]
  · simp only [dayTimeKey, dtAtMidnight, dateOfDT]
    omega

/-- C8: in `ProductTypeReportCreator.populate`, an empty filtered
finding set yields an empty "opened per month" series rather than an
error; the month window always contains at least the current month once
the window's start does not lie after `now` — in particular a scope
whose single finding is dated `now` yields exactly one month bucket. -/
theorem c8_opened_per_month_edge_cases :
    (∀ (w : World) (user : DojoUserRec) (host teamName : String)
        (parameters : List (String × String)) (pt : ProductTypeRec)
        (rootFilter : ProductTypeRec → Bool) (findingFilter : FindingRecord → Bool)
        (b1 b2 b3 b4 : Bool) (now : DateTimeV),
      (productTypeCreatorPopulate w user host teamName parameters pt rootFilter
          findingFilter b1 b2 b3 b4 now).findings = [] →
        (productTypeCreatorPopulate w user host teamName parameters pt rootFilter
          findingFilter b1 b2 b3 b4 now).openedPerMonth = []) ∧
      (∀ (w : World) (user : DojoUserRec) (host teamName : String)
          (parameters : List (String × String)) (pt : ProductTypeRec)
          (rootFilter : ProductTypeRec → Bool) (findingFilter : FindingRecord → Bool)
          (b1 b2 b3 b4 : Bool) (now : DateTimeV) (f : FindingRecord),
        (productTypeCreatorPopulate w user host teamName parameters pt rootFilter
            findingFilter b1 b2 b3 b4 now).findings = [f] →
          f.date = dateOfDT now →
          (productTypeCreatorPopulate w user host teamName parameters pt rootFilter
            findingFilter b1 b2 b3 b4 now).openedPerMonth.length = 1) ∧
      (∀ (w : World) (user : DojoUserRec) (host teamName : String)
          (parameters : List (String × String)) (pt : ProductTypeRec)
          (rootFilter : ProductTypeRec → Bool) (findingFilter : FindingRecord → Bool)
          (b1 b2 b3 b4 : Bool) (now : DateTimeV),
        dtChronLe (productTypeCreatorPopulate w user host teamName parameters pt rootFilter
            findingFilter b1 b2 b3 b4 now).startDate now →
          1 ≤ (productTypeCreatorPopulate w user host teamName parameters pt rootFilter
            findingFilter b1 b2 b3 b4 now).monthsBetween) := by
  refine ⟨?_, ?_, ?_⟩
  · intro w user host teamName parameters pt rootFilter findingFilter b1 b2 b3 b4 now hemp
    simp only [productTypeCreatorPopulate] at hemp ⊢
    rw [hemp]
    simp [getPeriodCountsLegacy]
  · intro w user host teamName parameters pt rootFilter findingFilter b1 b2 b3 b4 now f
      hone hdate
    simp only [productTypeCreatorPopulate] at hone ⊢
    rw [hone]
    simp only [List.getLast?_singleton]
    rw [hdate, relativedeltaMonths_now_midnight]
    simp [getPeriodCountsLegacy, List.range_succ]
  · intro w user host teamName parameters pt rootFilter findingFilter b1 b2 b3 b4 now hle
    simp only [productTypeCreatorPopulate] at hle ⊢
    have hnn := relativedeltaMonths_nonneg _ now hle
    omega

/-- Witness for C8: over `c8World`, filtering every finding away gives
an empty series; keeping the single finding dated at `c8Now`'s date
gives exactly one month bucket; and the window covers the current
month. -/
theorem c8_witness :
    (productTypeCreatorPopulate c8World ⟨7, "u", "F", "L", "pw"⟩ "h" "team" [] ⟨1, "Web"⟩
        (fun _ => true) (fun _ => false) false false false false c8Now).openedPerMonth = [] ∧
      (productTypeCreatorPopulate c8World ⟨7, "u", "F", "L", "pw"⟩ "h" "team" [] ⟨1, "Web"⟩
        (fun _ => true) (fun _ => true) false false false false c8Now).openedPerMonth.length
          = 1 ∧
      1 ≤ (productTypeCreatorPopulate c8World ⟨7, "u", "F", "L", "pw"⟩ "h" "team" [] ⟨1, "Web"⟩
        (fun _ => true) (fun _ => true) false false false false c8Now).monthsBetween :=
  ⟨c8_opened_per_month_edge_cases.1 c8World ⟨7, "u", "F", "L", "pw"⟩ "h" "team" [] ⟨1, "Web"⟩
      (fun _ => true) (fun _ => false) false false false false c8Now rfl,
    c8_opened_per_month_edge_cases.2.1 c8World ⟨7, "u", "F", "L", "pw"⟩ "h" "team" [] ⟨1, "Web"⟩
      (fun _ => true) (fun _ => true) false false false false c8Now
      ⟨1, "Fresh finding", ⟨2020, 1, 2⟩, "High", 1⟩ rfl rfl,
    c8_opened_per_month_edge_cases.2.2 c8World ⟨7, "u", "F", "L", "pw"⟩ "h" "team" [] ⟨1, "Web"⟩
      (fun _ => true) (fun _ => true) false false false false c8Now (by decide)⟩

/-- Models `d[k] = v` leaves the key `k` present. -/
lemma ctxHasKey_set_self (c : Ctx) (k : String) (v : Value) :
    ctxHasKey (ctxSet c k v) k = true := by
  unfold ctxSet ctxHasKey
  split
  · rename_i hany
    obtain ⟨p, hp, hpk⟩ := List.any_eq_true.mp hany
    refine List.any_eq_true.mpr ⟨(k, v), ?_, by simp⟩
    refine List.mem_map.mpr ⟨p, hp, ?_⟩
    simp [of_decide_eq_true hpk]
  · refine List.any_eq_true.mpr ⟨(k, v), by simp, by simp⟩

/-- Models `d[k] = v` keeps every key that was present. -/
lemma ctxHasKey_set_mono (c : Ctx) (k k' : String) (v : Value)
    (h : ctxHasKey c k' = true) : ctxHasKey (ctxSet c k v) k' = true := by
  unfold ctxSet ctxHasKey
  unfold ctxHasKey at h
  obtain ⟨p, hp, hpk⟩ := List.any_eq_true.mp h
  split
  · by_cases hk : p.1 = k
    · refine List.any_eq_true.mpr ⟨(k, v), List.mem_map.mpr ⟨p, hp, by simp [hk]⟩, ?_⟩
      simp only [decide_eq_true_eq]
      rw [← hk]
      exact of_decide_eq_true hpk
    · exact List.any_eq_true.mpr ⟨p, List.mem_map.mpr ⟨p, hp, by simp [hk]⟩, hpk⟩
  · exact List.any_eq_true.mpr ⟨p, List.mem_append_left _ hp, hpk⟩

/-- Models `d.update(u)` keeps every key of `d`. -/
lemma ctxHasKey_update_mono (c u : Ctx) (k : String)
    (h : ctxHasKey c k = true) : ctxHasKey (ctxUpdate c u) k = true := by
  induction u generalizing c with
  | nil => exact h
  | cons p rest ih => exact ih (ctxSet c p.1 p.2) (ctxHasKey_set_mono c p.1 k p.2 h)

/-- Models `d.update(u)` gains every key of `u`. -/
lemma ctxHasKey_update_right (c u : Ctx) (k : String)
    (h : ctxHasKey u k = true) : ctxHasKey (ctxUpdate c u) k = true := by
  induction u generalizing c with
  | nil => exact absurd h (by simp [ctxHasKey])
  | cons p rest ih =>
    by_cases hpk : p.1 = k
    · subst hpk
      exact ctxHasKey_update_mono _ rest p.1 (ctxHasKey_set_self c p.1 p.2)
    · apply ih
      obtain ⟨q, hq, hqk⟩ := List.any_eq_true.mp h
      rcases List.mem_cons.mp hq with rfl | hmem
      · exact absurd (of_decide_eq_true hqk) hpk
      · exact List.any_eq_true.mpr ⟨q, hmem, hqk⟩

/-- C10: two renderers built without an explicit `initial_context` alias
the single default dictionary allocated at module load (cell `0`);
`create_context` aliases `_context` to it and `render` mutates it in
place, so after one instance renders, the other instance's
`_initial_context` (and the module default itself) observes the
`objects` key and every key of the caller's update — the initial context
is not left unchanged by `render`. -/
theorem c10_shared_default_initial_context
    (qsA qsB : Value) (rtA rtB : String) (upd : Ctx) (stA stB : RState)
    (hA : mkJsonRenderer qsA rtA none = Except.ok stA)
    (hB : mkJsonRenderer qsB rtB none = Except.ok stB) :
    stB.initialCtx = stA.initialCtx ∧
      ctxHasKey (readRef (rendererRenderJson moduleHeap stA upd).1 stB.initialCtx)
        "objects" = true ∧
      (∀ k, ctxHasKey upd k = true →
        ctxHasKey (readRef (rendererRenderJson moduleHeap stA upd).1 stB.initialCtx) k
          = true) ∧
      readRef (rendererRenderJson moduleHeap stA upd).1 stB.initialCtx ≠
        readRef moduleHeap stB.initialCtx := by
  unfold mkJsonRenderer at hA hB
  split at hA
  case isFalse => exact absurd hA (by simp)
  split at hB
  case isFalse => exact absurd hB (by simp)
  have hA' := (Except.ok.injEq _ _).mp hA
  have hB' := (Except.ok.injEq _ _).mp hB
  subst hA'
  subst hB'
  have hobjects : ctxHasKey (ctxUpdate [("objects", valuesProjection qsA)] upd)
      "objects" = true :=
    ctxHasKey_update_mono _ upd "objects" (by simp [ctxHasKey])
  refine ⟨rfl, ?_, ?_, ?_⟩
  · show ctxHasKey (ctxUpdate [("objects", valuesProjection qsA)] upd) "objects" = true
    exact hobjects
  · intro k hk
    show ctxHasKey (ctxUpdate [("objects", valuesProjection qsA)] upd) k = true
    exact ctxHasKey_update_right _ upd k hk
  · show ctxUpdate [("objects", valuesProjection qsA)] upd ≠ ([] : Ctx)
    intro heq
    rw [heq] at hobjects
    exact absurd hobjects (by decide)

/-- Witness for C10: two concrete renderers, `product`- and
`test`-typed, constructed without `initial_context`; after the first one
renders with a `title` update, the second one's initial context holds
both `objects` and `title`. -/
theorem c10_witness :
    (⟨Value.vList [], "test", 0, none⟩ : RState).initialCtx =
        (⟨Value.vList [], "product", 0, none⟩ : RState).initialCtx ∧
      ctxHasKey (readRef (rendererRenderJson moduleHeap
          ⟨Value.vList [], "product", 0, none⟩ [("title", Value.vStr "T")]).1
          (⟨Value.vList [], "test", 0, none⟩ : RState).initialCtx) "objects" = true ∧
      (∀ k, ctxHasKey [("title", Value.vStr "T")] k = true →
        ctxHasKey (readRef (rendererRenderJson moduleHeap
          ⟨Value.vList [], "product", 0, none⟩ [("title", Value.vStr "T")]).1
          (⟨Value.vList [], "test", 0, none⟩ : RState).initialCtx) k = true) ∧
      readRef (rendererRenderJson moduleHeap
          ⟨Value.vList [], "product", 0, none⟩ [("title", Value.vStr "T")]).1
          (⟨Value.vList [], "test", 0, none⟩ : RState).initialCtx ≠
        readRef moduleHeap (⟨Value.vList [], "test", 0, none⟩ : RState).initialCtx :=
  c10_shared_default_initial_context (Value.vList []) (Value.vList []) "product" "test"
    [("title", Value.vStr "T")] ⟨Value.vList [], "product", 0, none⟩
    ⟨Value.vList [], "test", 0, none⟩ rfl rfl
